import Mathlib

set_option maxRecDepth 100000

/-!
Shallow embedding of the MCP client REPL (`src/mcp-client-repl.ts`) —
the connection/session lifecycle manager and the protocol error
classification layer — together with theorems checking the specified
properties against this embedding.

JavaScript runtime values that the error classifier probes are modelled
by the inductive type `JsVal`; exceptions are modelled by `Except Unit`.
The stateful `McpRepl` class is modelled by explicit state passing over
`ReplState`, with the externally observable transport interactions
recorded as a list of `Effect`s.
-/

/-- A JavaScript value as seen by the error classifier.  Objects carry an
association list of own fields plus a flag saying whether the object has
the default `Object.prototype` (an object created with
`Object.create(null)` has none, so it has no inherited `toString`).
Circular structures cannot be built in an inductive type; the classifier
never recurses into an object, so this does not restrict the claims. -/
inductive JsVal : Type where
  | vUndefined : JsVal
  | vNull : JsVal
  | vBool : Bool → JsVal
  | vNum : Int → JsVal
  | vStr : String → JsVal
  | vObj : List (String × JsVal) → Bool → JsVal

/-- `true` exactly for the JavaScript value `undefined`. -/
def isUndef : JsVal → Bool
  | .vUndefined => true
  | _ => false

/-- Own-field lookup on the field list of an object; a missing field reads as
`undefined`. -/
def getOwnField (fields : List (String × JsVal)) (k : String) : JsVal :=
  match fields.find? (fun p => p.1 == k) with
  | some p => p.2
  | none => .vUndefined

/-- Optional-chained property access `v?.k`: `undefined` when the
receiver is `null`/`undefined`, the own field (or `undefined`) on an
object, and `undefined` on the primitives for the field names the
classifier probes. -/
def optGet : JsVal → String → JsVal
  | .vObj fs _, k => getOwnField fs k
  | _, _ => .vUndefined

/-- JavaScript truthiness of a value (`if (v)` / the `||` operator). -/
def truthy : JsVal → Bool
  | .vUndefined => false
  | .vNull => false
  | .vBool b => b
  | .vNum n => n != 0
  | .vStr s => s != ""
  | .vObj _ _ => true

/-- JavaScript string conversion as performed by template-literal
interpolation and by property-key coercion.  An object without a
prototype has neither `toString` nor `valueOf`, so the coercion throws
a `TypeError`; that is the `Except.error` case. -/
def strConv : JsVal → Except Unit String
  | .vUndefined => .ok "undefined"
  | .vNull => .ok "null"
  | .vBool b => .ok (cond b "true" "false")
  | .vNum n => .ok (toString n)
  | .vStr s => .ok s
  | .vObj _ true => .ok "[object Object]"
  | .vObj _ false => .error ()

/-- The optional-chained method call `v?.toString()`.  On `null` /
`undefined` the chain short-circuits to `undefined` without a call; on
an object without a prototype the property `toString` is `undefined`
and invoking it throws a `TypeError`. -/
def toStringCall : JsVal → Except Unit JsVal
  | .vUndefined => .ok .vUndefined
  | .vNull => .ok .vUndefined
  | .vBool b => .ok (.vStr (cond b "true" "false"))
  | .vNum n => .ok (.vStr (toString n))
  | .vStr s => .ok (.vStr s)
  | .vObj _ true => .ok (.vStr "[object Object]")
  | .vObj _ false => .error ()

/-- One entry of the static MCP error-information table. -/
structure McpErrorInfo where
  code : Int
  name : String
  description : String
  commonCause : String
  howToHandle : String
deriving DecidableEq

/-- The static `MCP_ERROR_INFO` table of `src/mcp-client-repl.ts`,
keyed by the six known MCP error codes. -/
def MCP_ERROR_INFO : List (Int × McpErrorInfo) :=
  [ (-32000,
     { code := -32000
       name := "Authentication Error"
       description := "Missing or invalid authentication token"
       commonCause := "The API key or authentication credentials are missing or invalid"
       howToHandle := "Check your MCP_API_KEY environment variable or provide a valid API key when connecting" })
  , (-32001,
     { code := -32001
       name := "Invalid Session"
       description := "Session ID not found or expired"
       commonCause := "The session has expired or was not properly initialized"
       howToHandle := "Disconnect and reconnect to reinitialize the session" })
  , (-32002,
     { code := -32002
       name := "Method Not Found"
       description := "The requested method does not exist"
       commonCause := "Called a tool or method that is not available on this server"
       howToHandle := "Use \"tools\" command to list available tools and verify the method name" })
  , (-32003,
     { code := -32003
       name := "Invalid Parameters"
       description := "Missing or invalid parameters"
       commonCause := "The parameters provided do not match the expected schema"
       howToHandle := "Use \"tool <toolName>\" to see the expected parameters schema and validate your input" })
  , (-32004,
     { code := -32004
       name := "Internal Error"
       description := "Server-side exception occurred"
       commonCause := "An unexpected error occurred on the server"
       howToHandle := "Check server logs for details. This may be a bug in the MCP server implementation" })
  , (-32005,
     { code := -32005
       name := "Parse Error"
       description := "Invalid JSON format"
       commonCause := "The request contained malformed JSON"
       howToHandle := "Verify your JSON syntax. Use proper escaping and formatting" }) ]

/-- The error-code extraction of `formatMcpError` (lines 80–87): probe
`error?.code`, then `error?.error?.code`, then
`error?.response?.error?.code`, each compared against `undefined`. -/
def extractErrorCode (e : JsVal) : Option JsVal :=
  let c1 := optGet e "code"
  if isUndef c1 = false then some c1
  else
    let c2 := optGet (optGet e "error") "code"
    if isUndef c2 = false then some c2
    else
      let c3 := optGet (optGet (optGet e "response") "error") "code"
      if isUndef c3 = false then some c3
      else none

/-- The message extraction of `formatMcpError` (line 90):
`error?.message || error?.error?.message || error?.toString() ||
"Unknown error"`, with JavaScript `||` (truthiness) semantics.  The
`error?.toString()` call can throw (see `toStringCall`). -/
def extractMessage (e : JsVal) : Except Unit JsVal :=
  let m1 := optGet e "message"
  if truthy m1 then .ok m1
  else
    let m2 := optGet (optGet e "error") "message"
    if truthy m2 then .ok m2
    else
      match e with
      | .vUndefined => .ok (.vStr "Unknown error")
      | .vNull => .ok (.vStr "Unknown error")
      | _ =>
        match toStringCall e with
        | .error u => .error u
        | .ok t => if truthy t then .ok t else .ok (.vStr "Unknown error")

/-- The bracket lookup `MCP_ERROR_INFO[errorCode]`: the key is coerced
to a string (which can throw for an object without a prototype) and
compared against the string forms of the numeric keys of the table. -/
def jsLookupInfo (cv : JsVal) : Except Unit (Option McpErrorInfo) :=
  match strConv cv with
  | .error u => .error u
  | .ok k => .ok ((MCP_ERROR_INFO.find? (fun p => toString p.1 == k)).map (fun p => p.2))

/-- The details block appended for a recognized MCP error code
(lines 97–102 of `formatMcpError`). -/
def mcpErrorDetails (info : McpErrorInfo) : String :=
  "\n📋 MCP Error Details:\n" ++
  "   Code: " ++ toString info.code ++ "\n" ++
  "   Name: " ++ info.name ++ "\n" ++
  "   Description: " ++ info.description ++ "\n" ++
  "   Common Cause: " ++ info.commonCause ++ "\n" ++
  "   How to Handle: " ++ info.howToHandle ++ "\n"

/-- `formatMcpError` of `src/mcp-client-repl.ts` (lines 76–108).  The
result is the produced diagnostic string, or `Except.error` when the
function throws. -/
def formatMcpError (e : JsVal) : Except Unit String :=
  match extractMessage e with
  | .error u => .error u
  | .ok mv =>
    match strConv mv with
    | .error u => .error u
    | .ok ms =>
      let base := "Error: " ++ ms ++ "\n"
      match extractErrorCode e with
      | none => .ok base
      | some cv =>
        match jsLookupInfo cv with
        | .error u => .error u
        | .ok (some info) => .ok (base ++ mcpErrorDetails info)
        | .ok none =>
          match strConv cv with
          | .error u => .error u
          | .ok cs => .ok (base ++ "\nError Code: " ++ cs ++ " (unknown MCP error code)\n")

instance {ε α : Type} [DecidableEq ε] [DecidableEq α] : DecidableEq (Except ε α) :=
  fun a b =>
    match a, b with
    | .ok x, .ok y =>
        if h : x = y then isTrue (by rw [h]) else isFalse (by intro hh; injection hh; exact h ‹x = y›)
    | .error x, .error y =>
        if h : x = y then isTrue (by rw [h]) else isFalse (by intro hh; injection hh; exact h ‹x = y›)
    | .ok _, .error _ => isFalse (by intro hh; cases hh)
    | .error _, .ok _ => isFalse (by intro hh; cases hh)

/-- The three transport kinds of the `transportType` field. -/
inductive TransportKind : Type where
  | stdio : TransportKind
  | sse : TransportKind
  | http : TransportKind
deriving DecidableEq

/-- A constructed transport object, recording the constructor arguments:
`StdioClientTransport {command, args}`, `SSEClientTransport(url, apiKey
header)` or `StreamableHTTPClientTransport(url, apiKey header)`. -/
inductive TransportHandle : Type where
  | stdioT : String → List String → TransportHandle
  | sseT : String → Option String → TransportHandle
  | httpT : String → Option String → TransportHandle
deriving DecidableEq

/-- A cached tool descriptor `{name, description, input_schema}` as the
REPL stores it in `this.tools`. -/
structure Tool where
  name : String
  description : String
  input_schema : JsVal

/-- The mutable fields of the `McpRepl` class that the claims are about.
The `mcp` client object itself carries no state the claims mention (it
is recreated by `disconnect`), so it is not part of the state; its
externally visible interactions are recorded as `Effect`s instead. -/
structure ReplState where
  connected : Bool
  transport : Option TransportHandle
  transportType : Option TransportKind
  transportTarget : Option String
  tools : List Tool

/-- The `McpRepl` state at construction time. -/
def initialState : ReplState :=
  { connected := false
    transport := none
    transportType := none
    transportTarget := none
    tools := [] }

/-- Externally observable interactions of an operation with the MCP
client/transport layer, in order of occurrence: `mcp.connect(t)`,
`mcp.close()`, `mcp.listTools()` and `mcp.callTool({name})`. -/
inductive Effect : Type where
  | transportConnect : TransportHandle → Effect
  | clientClose : Effect
  | toolsFetch : Effect
  | toolCall : String → Effect
deriving DecidableEq

/-- Stands for the runtime value `process.execPath` (the path of the
running node executable); its concrete value is irrelevant to every
claim. -/
def processExecPath : String := "node"

/-- Substring test over character lists, embedding
`String.prototype.includes`. -/
def includesSubL : List Char → List Char → Bool
  | [], pat => pat.isEmpty
  | c :: t, pat => pat.isPrefixOf (c :: t) || includesSubL t pat

/-- `hay.includes(pat)` on strings. -/
def includes (hay pat : String) : Bool :=
  includesSubL hay.toList pat.toList

/-- `s.startsWith(pre)` on strings. -/
def jsStartsWith (s pre : String) : Bool :=
  pre.toList.isPrefixOf s.toList

/-- The shell-command heuristic of `connectScript` (lines 133–136):
the target contains `&&`, contains `cd `, starts with `npx `, or
contains a space. -/
def isShellCommand (scriptPath : String) : Bool :=
  includes scriptPath "&&" ||
  includes scriptPath "cd " ||
  jsStartsWith scriptPath "npx " ||
  includes scriptPath " "

/-- The `StdioClientTransport` built by `connectScript` (lines 138–149):
`/bin/bash -c <target>` in shell-command mode, otherwise
`process.execPath <target>` with the target as the single program
argument. -/
def mkStdioTransport (scriptPath : String) : TransportHandle :=
  if isShellCommand scriptPath then .stdioT "/bin/bash" ["-c", scriptPath]
  else .stdioT processExecPath [scriptPath]

/-- `McpRepl.connectScript` (lines 128–160).  `connectOk` is the outcome
of `await this.mcp.connect(transport)`; the returned `Bool` is `false`
when the method rethrows the connect failure.  Note that
`this.transport` is assigned before the `await`, so the new handle is
retained even on failure. -/
def connectScript (s : ReplState) (scriptPath : String) (connectOk : Bool) :
    ReplState × List Effect × Bool :=
  let t := mkStdioTransport scriptPath
  let s1 := { s with transport := some t }
  if connectOk then
    ({ s1 with connected := true, transportType := some .stdio,
               transportTarget := some scriptPath },
     [.transportConnect t], true)
  else
    (s1, [.transportConnect t], false)

/-- `McpRepl.connectSSE` (lines 162–183).  `urlOk` is whether
`new URL(url)` succeeds; a parse failure throws before `this.transport`
is assigned.  `connectOk` is the outcome of `mcp.connect`. -/
def connectSSE (s : ReplState) (url : String) (apiKey : Option String)
    (urlOk connectOk : Bool) : ReplState × List Effect × Bool :=
  if urlOk then
    let t := TransportHandle.sseT url apiKey
    let s1 := { s with transport := some t }
    if connectOk then
      ({ s1 with connected := true, transportType := some .sse,
                 transportTarget := some url },
       [.transportConnect t], true)
    else
      (s1, [.transportConnect t], false)
  else
    (s, [], false)

/-- `McpRepl.connectHTTP` (lines 185–206), analogous to `connectSSE`. -/
def connectHTTP (s : ReplState) (url : String) (apiKey : Option String)
    (urlOk connectOk : Bool) : ReplState × List Effect × Bool :=
  if urlOk then
    let t := TransportHandle.httpT url apiKey
    let s1 := { s with transport := some t }
    if connectOk then
      ({ s1 with connected := true, transportType := some .http,
                 transportTarget := some url },
       [.transportConnect t], true)
    else
      (s1, [.transportConnect t], false)
  else
    (s, [], false)

/-- `McpRepl.disconnect` (lines 208–226): closes the client only when
connected, then clears every session field and replaces the client
object. -/
def disconnect (s : ReplState) : ReplState × List Effect :=
  ({ connected := false
     transport := none
     transportType := none
     transportTarget := none
     tools := [] },
   if s.connected then [.clientClose] else [])

/-- `McpRepl.listTools` (lines 232–259), state and effects only: when
connected it fetches the tool list and replaces `this.tools` on
success; a fetch failure is caught and logged, leaving the cache
unchanged.  `resp` is the outcome of `mcp.listTools()`. -/
def listTools (s : ReplState) (resp : Except Unit (List Tool)) :
    ReplState × List Effect :=
  if s.connected then
    match resp with
    | .ok ts => ({ s with tools := ts }, [.toolsFetch])
    | .error _ => (s, [.toolsFetch])
  else
    (s, [])

/-- Outcome reported by `showTool`. -/
inductive ShowOutcome : Type where
  | notConnected : ShowOutcome
  | notFound : ShowOutcome
  | found : Tool → ShowOutcome

/-- `McpRepl.showTool` (lines 261–282): requires `connected`; when the
cache is empty it first runs `listTools` (which fetches), then looks
the name up in the (possibly refreshed) cache. -/
def showTool (s : ReplState) (toolName : String)
    (resp : Except Unit (List Tool)) : ReplState × List Effect × ShowOutcome :=
  if s.connected then
    let r := if s.tools.isEmpty then listTools s resp else (s, [])
    match r.1.tools.find? (fun t => t.name == toolName) with
    | some t => (r.1, r.2, .found t)
    | none => (r.1, r.2, .notFound)
  else
    (s, [], .notConnected)

/-- Outcome reported by `call`. -/
inductive CallOutcome : Type where
  | notConnected : CallOutcome
  | toolNotFound : CallOutcome
  | success : JsVal → CallOutcome
  | failure : CallOutcome

/-- `McpRepl.call` (lines 284–301): requires `connected` and the name
present in the cached catalog before forwarding exactly one
`mcp.callTool`; `resp` carries the result content on success.  A
round-trip failure is caught and reported. -/
def call (s : ReplState) (toolName : String) (resp : Except JsVal JsVal) :
    ReplState × List Effect × CallOutcome :=
  if s.connected then
    if (s.tools.find? (fun t => t.name == toolName)).isSome then
      match resp with
      | .ok content => (s, [.toolCall toolName], .success content)
      | .error _ => (s, [.toolCall toolName], .failure)
    else
      (s, [], .toolNotFound)
  else
    (s, [], .notConnected)

/-- The `connect` case of the REPL dispatcher (lines 387–406): empty
type/target print usage; otherwise the matching connect method is
invoked and any thrown error is swallowed. -/
def replConnectCase (s : ReplState) (ty target : String)
    (apiKey : Option String) (urlOk connectOk : Bool) : ReplState × List Effect :=
  if ty == "" || target == "" then (s, [])
  else if ty == "stdio" then
    let r := connectScript s target connectOk
    (r.1, r.2.1)
  else if ty == "http" then
    let r := connectHTTP s target apiKey urlOk connectOk
    (r.1, r.2.1)
  else if ty == "sse" then
    let r := connectSSE s target apiKey urlOk connectOk
    (r.1, r.2.1)
  else (s, [])

/-- `McpRepl.connectScript` of the earlier revision of the repository
(lines 538–556 of the file): no shell heuristic and no try/catch, and
after a successful `mcp.connect` it immediately fetches `listTools` and
replaces `this.tools` with the advertised tools.  `toolsResp` is the
outcome of that fetch; an exception from it would propagate. -/
def rev2ConnectScript (s : ReplState) (scriptPath : String) (connectOk : Bool)
    (toolsResp : Except Unit (List Tool)) : ReplState × List Effect × Bool :=
  let t := TransportHandle.stdioT processExecPath [scriptPath]
  let s1 := { s with transport := some t }
  if connectOk then
    let s2 := { s1 with connected := true, transportType := some .stdio,
                        transportTarget := some scriptPath }
    match toolsResp with
    | .ok ts => ({ s2 with tools := ts }, [.transportConnect t, .toolsFetch], true)
    | .error _ => (s2, [.transportConnect t, .toolsFetch], false)
  else
    (s1, [.transportConnect t], false)

/-- `McpRepl.connectSSE` of the earlier revision (lines 558–580), with
the same implicit catalog refresh after a successful connect. -/
def rev2ConnectSSE (s : ReplState) (url : String) (apiKey : Option String)
    (urlOk connectOk : Bool) (toolsResp : Except Unit (List Tool)) :
    ReplState × List Effect × Bool :=
  if urlOk then
    let t := TransportHandle.sseT url apiKey
    let s1 := { s with transport := some t }
    if connectOk then
      let s2 := { s1 with connected := true, transportType := some .sse,
                          transportTarget := some url }
      match toolsResp with
      | .ok ts => ({ s2 with tools := ts }, [.transportConnect t, .toolsFetch], true)
      | .error _ => (s2, [.transportConnect t, .toolsFetch], false)
    else
      (s1, [.transportConnect t], false)
  else
    (s, [], false)

/-- `McpRepl.connectHTTP` of the earlier revision (lines 582–604), with
the same implicit catalog refresh after a successful connect. -/
def rev2ConnectHTTP (s : ReplState) (url : String) (apiKey : Option String)
    (urlOk connectOk : Bool) (toolsResp : Except Unit (List Tool)) :
    ReplState × List Effect × Bool :=
  if urlOk then
    let t := TransportHandle.httpT url apiKey
    let s1 := { s with transport := some t }
    if connectOk then
      let s2 := { s1 with connected := true, transportType := some .http,
                          transportTarget := some url }
      match toolsResp with
      | .ok ts => ({ s2 with tools := ts }, [.transportConnect t, .toolsFetch], true)
      | .error _ => (s2, [.transportConnect t, .toolsFetch], false)
    else
      (s1, [.transportConnect t], false)
  else
    (s, [], false)

/-- Spec reading of the code-extraction order (the wording of claim C5): the
first field that is present, i.e. not `undefined`, among `code`,
`error.code` and `response.error.code` wins. -/
def specExtractErrorCode (e : JsVal) : Option JsVal :=
  [ optGet e "code",
    optGet (optGet e "error") "code",
    optGet (optGet (optGet e "response") "error") "code"
  ].find? (fun v => !(isUndef v))

/-- Spec reading of the message extraction (the wording of claim C5): the
first PRESENT (not `undefined`) of the direct `message` field and the
nested `error.message` field; then the generic string conversion of the
value; `"Unknown error"` when all of these are absent. -/
def specExtractMessage (e : JsVal) : Except Unit JsVal :=
  let m1 := optGet e "message"
  if isUndef m1 = false then .ok m1
  else
    let m2 := optGet (optGet e "error") "message"
    if isUndef m2 = false then .ok m2
    else
      match e with
      | .vUndefined => .ok (.vStr "Unknown error")
      | .vNull => .ok (.vStr "Unknown error")
      | _ => toStringCall e

/-- Corrected reading of the message extraction: the first TRUTHY of the
direct `message` field, the nested `error.message` field and the string
conversion; `"Unknown error"` when all are absent or falsy. -/
def truthyExtractMessage (e : JsVal) : Except Unit JsVal :=
  let m1 := optGet e "message"
  if truthy m1 then .ok m1
  else
    let m2 := optGet (optGet e "error") "message"
    if truthy m2 then .ok m2
    else
      match e with
      | .vUndefined => .ok (.vStr "Unknown error")
      | .vNull => .ok (.vStr "Unknown error")
      | _ =>
        match toStringCall e with
        | .error u => .error u
        | .ok t => if truthy t then .ok t else .ok (.vStr "Unknown error")

/-- Shell metacharacters, for the spec reading of the phrase
"contains shell metacharacters" in claim C9. -/
def specShellMetachars : List Char := [';', '|', '&', '<', '>']

/-- Interpreter-invocation tokens, for the spec reading of the phrase
"begins with an interpreter-invocation token" in claim C9. -/
def specInterpTokens : List String := ["node ", "npx "]

/-- Spec reading of claim C9: shell-command mode exactly when the target
contains a shell metacharacter, begins with an interpreter-invocation
token, or contains embedded whitespace. -/
def specShellMode (s : String) : Bool :=
  s.toList.any (fun c => specShellMetachars.contains c) ||
  specInterpTokens.any (fun t => jsStartsWith s t) ||
  s.toList.any (fun c => c == ' ' || c == '\t')

/-- A sample tool descriptor used by concrete witnesses. -/
def sampleTool : Tool :=
  { name := "get_weather"
    description := "Get current weather information for a location"
    input_schema := .vUndefined }

/-- A sample connected session with one cached tool. -/
def sampleConnected : ReplState :=
  { connected := true
    transport := some (.httpT "http://localhost:8206/mcp" none)
    transportType := some .http
    transportTarget := some "http://localhost:8206/mcp"
    tools := [sampleTool] }

/-- A sample connected session whose tool cache is empty. -/
def sampleConnectedNoTools : ReplState :=
  { sampleConnected with tools := [] }

/-- A character occurring in a substring occurs in the string. -/
theorem includesSubL_subset {l p : List Char} {c : Char}
    (h : includesSubL l p = true) (hc : c ∈ p) : c ∈ l := by
  induction l with
  | nil =>
    simp [includesSubL, List.isEmpty_iff] at h
    subst h
    simp at hc
  | cons a t ih =>
    simp only [includesSubL, Bool.or_eq_true] at h
    rcases h with h | h
    · rw [List.isPrefixOf_iff_prefix] at h
      exact h.subset hc
    · exact List.mem_cons_of_mem a (ih h)

/-- A string containing a character contains it as a one-character
substring. -/
theorem mem_includesSubL_singleton {l : List Char} {c : Char}
    (h : c ∈ l) : includesSubL l [c] = true := by
  induction l with
  | nil => simp at h
  | cons a t ih =>
    rcases List.mem_cons.mp h with rfl | h2
    · simp [includesSubL, List.isPrefixOf]
    · simp [includesSubL, ih h2]

/-- Claim C4 (code bug): `formatMcpError` is claimed never to throw for
any malformed input, but on an empty object created without a prototype
(`Object.create(null)`) the unguarded `error?.toString()` call throws a
`TypeError`, because the object has no inherited `toString`.  On `null`,
`undefined` and an ordinary empty object the function does return a
string, as the claim expects. -/
theorem c4_classifier_throws :
    formatMcpError (.vObj [] false) = .error () ∧
    formatMcpError .vNull = .ok "Error: Unknown error\n" ∧
    formatMcpError .vUndefined = .ok "Error: Unknown error\n" ∧
    formatMcpError (.vObj [] true) = .ok "Error: [object Object]\n" := by
  decide

/-- Claim C5 (counterexample): the claim says the message is taken from
the first PRESENT field, but the code uses JavaScript `||`, which skips
a present-but-falsy field.  On an object whose `message` field is the empty string, the reading of the claim
yields the empty message while the code falls through to the generic
string conversion `"[object Object]"`. -/
theorem c5_counterexample :
    extractMessage (.vObj [("message", .vStr "")] true) = .ok (.vStr "[object Object]") ∧
    specExtractMessage (.vObj [("message", .vStr "")] true) = .ok (.vStr "") ∧
    formatMcpError (.vObj [("message", .vStr "")] true) = .ok "Error: [object Object]\n" ∧
    ("[object Object]" : String) ≠ "" :=
  ⟨rfl, rfl, by decide, by decide⟩

/-- Claim C5 (amended): the code extraction is by presence, as claimed
(first probe of `code`, `error.code`, `response.error.code` that is not
`undefined`), but the message extraction is by TRUTHINESS: the first
truthy of the direct `message` and the nested `error.message` wins;
when both are falsy the string conversion of the error is used, and
`"Unknown error"` is produced for `null`/`undefined` (and whenever
everything probed is falsy). -/
theorem c5_amended (e : JsVal) :
    extractErrorCode e = specExtractErrorCode e ∧
    (truthy (optGet e "message") = true →
       extractMessage e = .ok (optGet e "message")) ∧
    (truthy (optGet e "message") = false →
       truthy (optGet (optGet e "error") "message") = true →
       extractMessage e = .ok (optGet (optGet e "error") "message")) ∧
    (truthy (optGet e "message") = false →
       truthy (optGet (optGet e "error") "message") = false →
       (e = .vNull ∨ e = .vUndefined) →
       extractMessage e = .ok (.vStr "Unknown error")) ∧
    (∀ fs, e = .vObj fs true →
       truthy (optGet e "message") = false →
       truthy (optGet (optGet e "error") "message") = false →
       extractMessage e = .ok (.vStr "[object Object]")) := by
  refine ⟨?_, ?_, ?_, ?_, ?_⟩
  · unfold extractErrorCode specExtractErrorCode
    cases h1 : isUndef (optGet e "code") <;>
      cases h2 : isUndef (optGet (optGet e "error") "code") <;>
        cases h3 : isUndef (optGet (optGet (optGet e "response") "error") "code") <;>
          simp [List.find?, h1, h2, h3]
  · intro h1
    simp [extractMessage, h1]
  · intro h1 h2
    simp [extractMessage, h1, h2]
  · intro h1 h2 h3
    rcases h3 with rfl | rfl <;> rfl
  · intro fs he h1 h2
    subst he
    simp only [extractMessage, h1, h2, Bool.false_eq_true, if_false]
    rfl

/-- Witness for `c5_amended` at concrete inputs. -/
theorem c5_amended_witness :
    extractMessage (.vObj [("message", .vStr "hi")] true) =
      .ok (optGet (.vObj [("message", .vStr "hi")] true) "message") ∧
    extractMessage .vNull = .ok (.vStr "Unknown error") ∧
    extractMessage (.vObj [] true) = .ok (.vStr "[object Object]") :=
  ⟨(c5_amended (.vObj [("message", .vStr "hi")] true)).2.1 (by decide),
   (c5_amended .vNull).2.2.2.1 (by decide) (by decide) (Or.inl rfl),
   (c5_amended (.vObj [] true)).2.2.2.2 [] rfl (by decide) (by decide)⟩

/-- Claim C6 (confirmed): the six known codes are exactly −32000 …
−32005; classifying an error carrying one of them yields the diagnostic
built verbatim from the static table entry; an unrecognized numeric
code is reported as unknown with no remediation text; and with no code
at all only the extracted message is reported. -/
theorem c6_classifier :
    MCP_ERROR_INFO.map Prod.fst = [-32000, -32001, -32002, -32003, -32004, -32005] ∧
    (∀ (c : Int) (info : McpErrorInfo), (c, info) ∈ MCP_ERROR_INFO →
      formatMcpError (.vObj [("code", .vNum c), ("message", .vStr "boom")] true) =
        .ok ("Error: boom\n" ++
             "\n📋 MCP Error Details:\n" ++
             "   Code: " ++ toString info.code ++ "\n" ++
             "   Name: " ++ info.name ++ "\n" ++
             "   Description: " ++ info.description ++ "\n" ++
             "   Common Cause: " ++ info.commonCause ++ "\n" ++
             "   How to Handle: " ++ info.howToHandle ++ "\n")) ∧
    (∀ c : Int, MCP_ERROR_INFO.find? (fun p => toString p.1 == toString c) = none →
      formatMcpError (.vObj [("code", .vNum c), ("message", .vStr "boom")] true) =
        .ok ("Error: boom\n\nError Code: " ++ toString c ++ " (unknown MCP error code)\n")) ∧
    formatMcpError (.vObj [("message", .vStr "boom")] true) = .ok "Error: boom\n" := by
  refine ⟨by decide, ?_, ?_, by decide⟩
  · intro c info hmem
    simp only [MCP_ERROR_INFO, List.mem_cons, List.not_mem_nil, or_false,
      Prod.mk.injEq] at hmem
    rcases hmem with ⟨rfl, rfl⟩ | ⟨rfl, rfl⟩ | ⟨rfl, rfl⟩ | ⟨rfl, rfl⟩ | ⟨rfl, rfl⟩ | ⟨rfl, rfl⟩ <;>
      decide
  · intro c hnone
    have h3 : jsLookupInfo (.vNum c) = .ok (none : Option McpErrorInfo) := by
      simp only [jsLookupInfo, strConv]
      rw [hnone]
      rfl
    have h1 : extractMessage (.vObj [("code", .vNum c), ("message", .vStr "boom")] true) =
        .ok (.vStr "boom") := rfl
    have h2 : extractErrorCode (.vObj [("code", .vNum c), ("message", .vStr "boom")] true) =
        some (.vNum c) := rfl
    simp only [formatMcpError, h1, h2, h3, strConv]
    rfl

/-- Witness for `c6_classifier` at a known and an unknown code. -/
theorem c6_classifier_witness :
    formatMcpError (.vObj [("code", .vNum (-32000)), ("message", .vStr "boom")] true) =
      .ok ("Error: boom\n" ++
           "\n📋 MCP Error Details:\n" ++
           "   Code: " ++ toString (-32000 : Int) ++ "\n" ++
           "   Name: " ++ "Authentication Error" ++ "\n" ++
           "   Description: " ++ "Missing or invalid authentication token" ++ "\n" ++
           "   Common Cause: " ++ "The API key or authentication credentials are missing or invalid" ++ "\n" ++
           "   How to Handle: " ++ "Check your MCP_API_KEY environment variable or provide a valid API key when connecting" ++ "\n") ∧
    formatMcpError (.vObj [("code", .vNum 7), ("message", .vStr "boom")] true) =
      .ok ("Error: boom\n\nError Code: " ++ toString (7 : Int) ++ " (unknown MCP error code)\n") :=
  ⟨c6_classifier.2.1 (-32000)
      { code := -32000
        name := "Authentication Error"
        description := "Missing or invalid authentication token"
        commonCause := "The API key or authentication credentials are missing or invalid"
        howToHandle := "Check your MCP_API_KEY environment variable or provide a valid API key when connecting" }
      (by decide),
   c6_classifier.2.2.1 7 (by decide)⟩

/-- Claim C1 (counterexample): in the current revision a successful
`connectScript` from the initial state performs no `listTools` fetch
and leaves the Tool Catalog empty, so immediately after connect the
catalog does not contain the tools advertised by the server. -/
theorem c1_counterexample :
    (connectScript initialState "server.js" true).1.tools = [] ∧
    Effect.toolsFetch ∉ (connectScript initialState "server.js" true).2.1 ∧
    (connectScript initialState "server.js" true).2.2 = true :=
  ⟨rfl, by decide, rfl⟩

/-- Claim C1 (amended): only the connect operations of the earlier revision
refresh the Tool Catalog as a side effect of a successful connect (one
implicit `listTools` fetch, after which the catalog holds exactly the
advertised tools); in the current revision a successful connect on any
of the three transports performs no catalog fetch and leaves the
catalog unchanged — it is populated only by an explicit `listTools` or
by the lazy reload in `showTool`. -/
theorem c1_amended (s : ReplState) (path url : String) (key : Option String)
    (ts : List Tool) :
    (rev2ConnectScript s path true (.ok ts)).1.tools = ts ∧
    Effect.toolsFetch ∈ (rev2ConnectScript s path true (.ok ts)).2.1 ∧
    (rev2ConnectSSE s url key true true (.ok ts)).1.tools = ts ∧
    Effect.toolsFetch ∈ (rev2ConnectSSE s url key true true (.ok ts)).2.1 ∧
    (rev2ConnectHTTP s url key true true (.ok ts)).1.tools = ts ∧
    Effect.toolsFetch ∈ (rev2ConnectHTTP s url key true true (.ok ts)).2.1 ∧
    (connectScript s path true).1.tools = s.tools ∧
    Effect.toolsFetch ∉ (connectScript s path true).2.1 ∧
    (connectSSE s url key true true).1.tools = s.tools ∧
    Effect.toolsFetch ∉ (connectSSE s url key true true).2.1 ∧
    (connectHTTP s url key true true).1.tools = s.tools ∧
    Effect.toolsFetch ∉ (connectHTTP s url key true true).2.1 := by
  refine ⟨rfl, ?_, rfl, ?_, rfl, ?_, rfl, ?_, rfl, ?_, rfl, ?_⟩ <;>
    simp [rev2ConnectScript, rev2ConnectSSE, rev2ConnectHTTP,
      connectScript, connectSSE, connectHTTP]

/-- Claim C2 (counterexample): starting from a connected session,
`connectScript` succeeds without ever closing the previous client or
transport — no `clientClose` interaction occurs; the old transport
handle is simply overwritten, so the prior session is not disconnected
first. -/
theorem c2_counterexample :
    sampleConnected.connected = true ∧
    Effect.clientClose ∉ (connectScript sampleConnected "new-server.js" true).2.1 ∧
    (connectScript sampleConnected "new-server.js" true).1.transport =
      some (.stdioT processExecPath ["new-server.js"]) ∧
    sampleConnected.transport = some (.httpT "http://localhost:8206/mcp" none) :=
  ⟨rfl, by decide, by decide, rfl⟩

/-- Claim C2 (amended): none of the three connect operations (nor the
REPL `connect` command built on them) ever closes the prior session:
no `clientClose` interaction is performed, the previous transport
handle is overwritten without being closed.  (The only paths that close
the client are `disconnect` itself and the `connectenv` command, which
calls `disconnect` explicitly first.) -/
theorem c2_amended (s : ReplState) (ty target path url : String)
    (key : Option String) (urlOk connectOk : Bool) :
    Effect.clientClose ∉ (connectScript s path connectOk).2.1 ∧
    Effect.clientClose ∉ (connectSSE s url key urlOk connectOk).2.1 ∧
    Effect.clientClose ∉ (connectHTTP s url key urlOk connectOk).2.1 ∧
    Effect.clientClose ∉ (replConnectCase s ty target key urlOk connectOk).2 := by
  refine ⟨?_, ?_, ?_, ?_⟩
  · cases connectOk <;> simp [connectScript]
  · cases urlOk <;> cases connectOk <;> simp [connectSSE]
  · cases urlOk <;> cases connectOk <;> simp [connectHTTP]
  · unfold replConnectCase
    split_ifs <;> cases urlOk <;> cases connectOk <;>
      simp [connectScript, connectSSE, connectHTTP]

/-- Claim C3 (counterexample): a failed `connectScript` from the
initial state does not leave the state exactly as it was: the freshly
created transport handle is retained in the `transport` field (it is
assigned before `mcp.connect` is awaited, and the catch block does not
roll it back). -/
theorem c3_counterexample :
    (connectScript initialState "boom.js" false).2.2 = false ∧
    (connectScript initialState "boom.js" false).1.transport =
      some (.stdioT processExecPath ["boom.js"]) ∧
    initialState.transport = none :=
  ⟨rfl, by decide, rfl⟩

/-- Claim C3 (amended): a failed connect leaves the connected flag,
transport type, target and Tool Catalog unchanged from before the
attempt (hence `Disconnected` with an empty catalog when the attempt
began there), but the freshly created transport handle remains stored
in the `transport` field; for SSE/HTTP this holds when the URL parsed,
while a URL-parse failure leaves the state entirely unchanged. -/
theorem c3_amended (s : ReplState) (path url : String) (key : Option String)
    (connectOk : Bool) :
    (connectScript s path false).1 = { s with transport := some (mkStdioTransport path) } ∧
    (connectSSE s url key true false).1 = { s with transport := some (.sseT url key) } ∧
    (connectHTTP s url key true false).1 = { s with transport := some (.httpT url key) } ∧
    (connectSSE s url key false connectOk).1 = s ∧
    (connectHTTP s url key false connectOk).1 = s :=
  ⟨rfl, rfl, rfl, rfl, rfl⟩

/-- Claim C7 (confirmed): `call` requires the connected state (else it
reports not-connected with no transport interaction), requires the tool
name to be in the cached catalog (else it reports not-found with no
transport interaction), and when both preconditions hold it forwards
exactly one `callTool` to the transport and returns the result content
verbatim. -/
theorem c7_call_guards (s : ReplState) (toolName : String)
    (resp : Except JsVal JsVal) :
    (s.connected = false → call s toolName resp = (s, [], .notConnected)) ∧
    (s.connected = true →
       (s.tools.find? (fun t => t.name == toolName)).isSome = false →
       call s toolName resp = (s, [], .toolNotFound)) ∧
    (s.connected = true →
       (s.tools.find? (fun t => t.name == toolName)).isSome = true →
       (call s toolName resp).2.1 = [.toolCall toolName] ∧
       (call s toolName resp).1 = s ∧
       ∀ content, resp = .ok content → (call s toolName resp).2.2 = .success content) := by
  refine ⟨?_, ?_, ?_⟩
  · intro h
    simp [call, h]
  · intro h1 h2
    simp [call, h1, h2]
  · intro h1 h2
    refine ⟨?_, ?_, ?_⟩
    · cases resp <;> simp [call, h1, h2]
    · cases resp <;> simp [call, h1, h2]
    · intro content hr
      subst hr
      simp [call, h1, h2]

/-- Witness for `c7_call_guards` on concrete sessions. -/
theorem c7_call_guards_witness :
    call initialState "get_weather" (.ok (.vStr "sunny")) =
      (initialState, [], .notConnected) ∧
    call sampleConnected "nope" (.ok (.vStr "sunny")) =
      (sampleConnected, [], .toolNotFound) ∧
    (call sampleConnected "get_weather" (.ok (.vStr "sunny"))).2.1 =
      [.toolCall "get_weather"] ∧
    (call sampleConnected "get_weather" (.ok (.vStr "sunny"))).2.2 =
      .success (.vStr "sunny") :=
  ⟨(c7_call_guards initialState "get_weather" (.ok (.vStr "sunny"))).1 rfl,
   (c7_call_guards sampleConnected "nope" (.ok (.vStr "sunny"))).2.1 rfl (by decide),
   ((c7_call_guards sampleConnected "get_weather" (.ok (.vStr "sunny"))).2.2 rfl (by decide)).1,
   ((c7_call_guards sampleConnected "get_weather" (.ok (.vStr "sunny"))).2.2 rfl (by decide)).2.2
     (.vStr "sunny") rfl⟩

/-- Claim C8 (confirmed): `disconnect` is idempotent — it is total (no
error path: the client is only closed when a session is connected), and
after one `disconnect` the state is fully cleared, so a second
`disconnect` changes none of the session fields and performs no close
interaction. -/
theorem c8_disconnect_idempotent (s : ReplState) :
    (disconnect (disconnect s).1).1 = (disconnect s).1 ∧
    (disconnect (disconnect s).1).2 = [] :=
  ⟨rfl, rfl⟩

/-- Claim C10 (confirmed): in the connected state with an empty Tool
Catalog, `showTool` first reloads the catalog from the server via
`listTools` (exactly one fetch) and only then performs the name lookup,
so the found/not-found outcome is computed against the freshly loaded
catalog. -/
theorem c10_showTool_lazy_reload (s : ReplState) (toolName : String)
    (ts : List Tool) (hc : s.connected = true) (he : s.tools = []) :
    showTool s toolName (.ok ts) =
      ({ s with tools := ts }, [.toolsFetch],
       match ts.find? (fun t => t.name == toolName) with
       | some t => .found t
       | none => .notFound) := by
  simp only [showTool, listTools, hc, he, List.isEmpty_nil, if_true]
  cases hf : ts.find? (fun t => t.name == toolName) <;> simp [hf]

/-- Witness for `c10_showTool_lazy_reload` on a concrete session. -/
theorem c10_showTool_lazy_reload_witness :
    showTool sampleConnectedNoTools "get_weather" (.ok [sampleTool]) =
      ({ sampleConnectedNoTools with tools := [sampleTool] }, [.toolsFetch],
       match [sampleTool].find? (fun t => t.name == "get_weather") with
       | some t => ShowOutcome.found t
       | none => ShowOutcome.notFound) :=
  c10_showTool_lazy_reload sampleConnectedNoTools "get_weather" [sampleTool] rfl rfl

/-- Claim C9 (counterexample): the target `a;b` contains the shell
metacharacter `;` (and no whitespace, and no leading interpreter
token), so by the claim it should run in shell-command mode; the heuristic in the code checks only `&&`, `cd `, `npx ` and spaces, so it executes
the target directly. -/
theorem c9_counterexample :
    specShellMode "a;b" = true ∧ isShellCommand "a;b" = false := by
  decide

/-- Claim C9 (amended): the target runs in shell-command mode exactly
when it contains `&&` or contains a space character — the `cd ` and
`npx ` checks of the heuristic are subsumed by the space check, and no
other shell metacharacter (such as `;`, `|` or a single `&`) triggers
shell mode. -/
theorem c9_amended (s : String) :
    isShellCommand s = (includes s "&&" || includes s " ") := by
  unfold isShellCommand
  cases hsp : includes s " " with
  | true => simp [hsp]
  | false =>
    have hspace : ¬ (' ' : Char) ∈ s.toList := by
      intro hmem
      have : includes s " " = true := by
        unfold includes
        have ht : " ".toList = [' '] := by decide
        rw [ht]
        exact mem_includesSubL_singleton hmem
      simp [this] at hsp
    have hcd : includes s "cd " = false := by
      cases h : includes s "cd " with
      | false => rfl
      | true =>
        unfold includes at h
        have hm : (' ' : Char) ∈ "cd ".toList := by decide
        exact absurd (includesSubL_subset h hm) hspace
    have hnp : jsStartsWith s "npx " = false := by
      cases h : jsStartsWith s "npx " with
      | false => rfl
      | true =>
        unfold jsStartsWith at h
        rw [List.isPrefixOf_iff_prefix] at h
        have hm : (' ' : Char) ∈ "npx ".toList := by decide
        exact absurd (h.subset hm) hspace
    simp [hcd, hnp, hsp]
